import Mathlib

/-
Verification of receiver-power-sync.

Shallow embedding of the repository's core: the eISCP framer
(eiscp.py), the per-transport message readers, the connection
disconnect logic, the send retry logic and the relay orchestration
(service.py).  Byte strings are modelled as `List Nat`, one entry per
byte; Python slice semantics (clamping, negative stop indices) are
modelled explicitly by `pySlice`.
-/

namespace ReceiverPowerSync

/-- Big-endian encoding of `n` on `k` bytes, as produced by
`struct.pack` with an `I` field (the caller guards the range). -/
def toBytesBE : Nat → Nat → List Nat
  | 0, _ => []
  | k + 1, n => toBytesBE k (n / 256) ++ [n % 256]

/-- Model of Python `int.from_bytes(l, "big")`. -/
def fromBytesBE (l : List Nat) : Nat :=
  l.foldl (fun a b => a * 256 + b) 0

/-- Clamp one Python slice index against a list of length `L`:
negative indices count from the end, indices past the end clamp. -/
def pyBound (L : Nat) (i : Int) : Nat :=
  if i < 0 then ((L : Int) + i).toNat else min i.toNat L

/-- Model of the Python slice `l[a:b]` (step 1). -/
def pySlice (l : List Nat) (a b : Int) : List Nat :=
  (l.take (pyBound l.length b)).drop (pyBound l.length a)

/-- Model of `build_eiscp_packet` (eiscp.py line 9): `struct.pack`
with format `>4sIIcxxx{n}sc` on `(b"ISCP", 16, len(command)+1, 1,
command, 13)`.  The `I` field raises `struct.error` when
`len(command)+1` does not fit an unsigned 32-bit value, modelled as
`none`.  The parenthesised group is the 16-byte header. -/
def build_eiscp_packet (command : List Nat) : Option (List Nat) :=
  if command.length + 1 < 4294967296 then
    some (([73, 83, 67, 80] ++ toBytesBE 4 16 ++ toBytesBE 4 (command.length + 1)
      ++ [1, 0, 0, 0]) ++ command ++ [13])
  else none

/-- Model of `extract_eiscp_header` (eiscp.py line 28): `None` unless
the input starts with `b"ISCP"`, otherwise the pair of big-endian
fields read from slices `[4:8]` and `[8:12]` (these slices clamp, so
short inputs still yield a pair). -/
def extract_eiscp_header (header : List Nat) : Option (Nat × Nat) :=
  if header.take 4 = [73, 83, 67, 80] then
    some (fromBytesBE ((header.drop 4).take 4), fromBytesBE ((header.drop 8).take 4))
  else none

/-- Model of `extract_eiscp_message` (eiscp.py line 14): slices
`data[header_size : header_size + data_size - 1]` with Python slice
semantics (the stop index is an `Int`, since it is `-1` when both
fields are zero). -/
def extract_eiscp_message (data : List Nat) : Option (List Nat) :=
  match extract_eiscp_header data with
  | none => none
  | some hd => some (pySlice data (hd.1 : Int) ((hd.1 : Int) + (hd.2 : Int) - 1))

end ReceiverPowerSync

namespace ReceiverPowerSync

/-- Terminator bytes recognised by both message readers
(service.py lines 89 and 192): carriage return, line feed, 0x1A. -/
def isTermByte (b : Nat) : Bool :=
  b == 13 || b == 10 || b == 26

namespace ReceiverConnection

/-- Loop body of `ReceiverConnection.get_message` (service.py lines
85-96), processing one delivered byte at a time.  `received` is the
accumulator `received_data`, `found` the flag `found_message`; a
terminator byte ends the message only once `found` is set and is
otherwise skipped; every other byte (marker `!` = 33 included) is
appended; stream exhaustion models `check_for_message()` turning
false, leaving the loop with `terminated` still false, so `None` is
returned. -/
def assemble_loop : List Nat → List Nat → Bool → Option (List Nat)
  | [], _, _ => none
  | b :: rest, received, found =>
    if isTermByte b then
      if found then some received else assemble_loop rest received found
    else
      assemble_loop rest (received ++ [b]) (found || b == 33)

/-- Model of `ReceiverConnection.get_message` (service.py lines
80-103) on a finite stream of delivered bytes. -/
def get_message (stream : List Nat) : Option (List Nat) :=
  assemble_loop stream [] false

end ReceiverConnection

/-- Errors that can escape `EiscpConnection.get_message`: the
`ConnectionClosedException` raised on a falsy single-byte read
(service.py line 172), and the `TypeError` Python raises at line 174
when `_tcp_grab_bytes(15)` returns `None` and the code evaluates
`header + None`. -/
inductive EiscpReadErr where
  | connClosed
  | typeErr
deriving DecidableEq

namespace EiscpConnection

/-- Model of `EiscpConnection._tcp_grab_bytes` (service.py lines
203-213).  The input stream is a list of single-byte read outcomes:
`some b` means the 1-second `select` reported ready and `recv(1)`
returned byte `b`; `none` means the 1-second timeout fired, upon which
the function returns `None`.  The second component is the unread rest
of the stream. -/
def tcp_grab_bytes : Nat → List (Option Nat) → Option (List Nat) × List (Option Nat)
  | 0, s => (some [], s)
  | _ + 1, [] => (none, [])
  | _ + 1, none :: rest => (none, rest)
  | n + 1, some b :: rest =>
    match tcp_grab_bytes n rest with
    | (some bs, s1) => (some (b :: bs), s1)
    | (none, s1) => (none, s1)

/-- Initial while loop of `EiscpConnection.get_message` (service.py
lines 166-172): grab one byte at a time until an `I` (73) arrives
(which is kept as the first header byte), raising
`ConnectionClosedException` on a falsy read, discarding other bytes;
stream exhaustion models `check_for_message()` turning false, which
exits the loop with the header buffer still empty. -/
def seek_marker : List (Option Nat) → Except EiscpReadErr (List Nat × List (Option Nat))
  | [] => Except.ok ([], [])
  | none :: _ => Except.error EiscpReadErr.connClosed
  | some b :: rest =>
    if b = 73 then Except.ok ([b], rest)
    else seek_marker rest

/-- Strip all trailing terminator bytes, as the `while
message.endswith(...)` loop at service.py lines 192-193 does. -/
def stripTermsRight (l : List Nat) : List Nat :=
  (l.reverse.dropWhile (fun b => isTermByte b)).reverse

/-- Payload acceptance at the tail of `EiscpConnection.get_message`
(service.py lines 186-201): a falsy payload returns `None`; otherwise
trailing terminators are stripped and the result is returned exactly
when it starts with `!1` (bytes 33, 49). -/
def accept_payload (msg : List Nat) : Option (List Nat) :=
  if msg = [] then none
  else
    let m := stripTermsRight msg
    if m.take 2 = [33, 49] then some m else none

/-- Model of `EiscpConnection.get_message` (service.py lines 163-201)
on a stream of single-byte read outcomes.  After the marker search the
code reads 15 further bytes with `header += self._tcp_grab_bytes(15)`:
when the grab times out it returns `None` and the `+=` raises
`TypeError`.  A header that fails `extract_eiscp_header` returns
`None`; if the declared header size exceeds 16 the extra bytes are
grabbed and the result is discarded even on timeout; finally the
payload is grabbed and fed to `accept_payload`. -/
def get_message (s : List (Option Nat)) : Except EiscpReadErr (Option (List Nat)) :=
  match seek_marker s with
  | Except.error e => Except.error e
  | Except.ok (h0, s1) =>
    match tcp_grab_bytes 15 s1 with
    | (none, _) => Except.error EiscpReadErr.typeErr
    | (some h15, s2) =>
      match extract_eiscp_header (h0 ++ h15) with
      | none => Except.ok none
      | some hd =>
        let s3 := if 16 < hd.1 then (tcp_grab_bytes (hd.1 - 16) s2).2 else s2
        match tcp_grab_bytes hd.2 s3 with
        | (none, _) => Except.ok none
        | (some msg, _) => Except.ok (accept_payload msg)

end EiscpConnection

/-- Runtime state shared by the two TCP connection classes: whether a
socket object is held, and the `connected` flag. -/
structure TcpConnState where
  hasSock : Bool
  connected : Bool
deriving DecidableEq

/-- Model of `EiscpConnection._disconnect` (service.py lines 150-157):
when connected, the socket is shut down, closed and dropped and the
`connected` flag is cleared; otherwise nothing happens. -/
def EiscpConnection.discon (s : TcpConnState) : TcpConnState :=
  if s.connected then TcpConnState.mk false false else s

/-- Model of `IscpTcpConnection._disconnect` (service.py lines
237-244), identical to the eISCP variant. -/
def IscpTcpConnection.discon (s : TcpConnState) : TcpConnState :=
  if s.connected then TcpConnState.mk false false else s

/-- State of a pyserial `Serial` object as far as `_disconnect` is
concerned: whether the port is open. -/
structure SerialPort where
  is_open : Bool
deriving DecidableEq

/-- Runtime state of `IscpSerialConnection`: the optional `Serial`
object and the `connected` flag. -/
structure SerialConnState where
  ser : Option SerialPort
  connected : Bool
deriving DecidableEq

/-- Model of `IscpSerialConnection._disconnect` (service.py lines
289-293): when connected and the port is open, `ser.close()` is
called (clearing `is_open`); the `connected` flag is never touched. -/
def IscpSerialConnection.discon (s : SerialConnState) : SerialConnState :=
  match s.ser with
  | none => s
  | some p =>
    if s.connected && p.is_open then SerialConnState.mk (some (SerialPort.mk false)) s.connected
    else s

/-- Guard at the top of each `listen_forever` iteration (service.py
line 61): a reconnect is attempted exactly when the `connected` flag
is clear. -/
def listen_iteration_reconnects (connected : Bool) : Bool :=
  !connected

/-- Observable actions of `ReceiverConnection.send_message_to_receiver`
(service.py lines 111-123), in order of execution. -/
inductive SendAct where
  | connectAct
  | writeAct
  | sleepOneAct
  | disconnectAct
deriving DecidableEq

/-- Draw the outcome of one `_send_message_to_receiver` call from an
oracle stream; `true` means the call raises `ConnectionResetError`.
An exhausted oracle means the write succeeds. -/
def attemptWrite : List Bool → Bool × List Bool
  | [] => (false, [])
  | o :: rest => (o, rest)

namespace ReceiverConnection

/-- Model of `ReceiverConnection.send_message_to_receiver` (service.py
lines 111-123): connect when not connected, attempt the write; on
`ConnectionResetError` sleep 1 second, disconnect, reconnect and
attempt the write once more, any error of which propagates.  Returns
the trace of actions and whether an error escaped to the caller. -/
def send_message_to_receiver (connected : Bool) (oracle : List Bool) :
    List SendAct × Bool :=
  let pre : List SendAct := if connected then [] else [SendAct.connectAct]
  let r1 := attemptWrite oracle
  if r1.1 = false then (pre ++ [SendAct.writeAct], false)
  else
    let r2 := attemptWrite r1.2
    (pre ++ [SendAct.writeAct, SendAct.sleepOneAct, SendAct.disconnectAct,
      SendAct.connectAct, SendAct.writeAct], r2.1)

end ReceiverConnection

namespace ReceiverSyncService

/-- Loop body of `relay_message_to_secondary` (service.py lines
368-369): send to each secondary in list order.  `fails s = true`
means `send_message_to_receiver` raises for secondary `s`; the loop
has no try/except, so the exception aborts the loop and propagates.
Returns the list of (secondary, delivered bytes) pairs and whether an
exception escaped. -/
def sendLoop (fails : Nat → Bool) (message : List Nat) :
    List Nat → List (Nat × List Nat) × Bool
  | [] => ([], false)
  | s :: rest =>
    if fails s then ([], true)
    else
      let r := sendLoop fails message rest
      ((s, message) :: r.1, r.2)

/-- Model of `ReceiverSyncService.relay_message_to_secondary`
(service.py lines 364-369): when the message starts with `!1PWR`
(bytes 33, 49, 80, 87, 82) it is sent verbatim to every listener
after the first (`self.listeners[1:]`), otherwise nothing is sent. -/
def relay_message_to_secondary (fails : Nat → Bool) (listeners : List Nat)
    (message : List Nat) : List (Nat × List Nat) × Bool :=
  if message.take 5 = [33, 49, 80, 87, 82] then
    sendLoop fails message (listeners.drop 1)
  else ([], false)

end ReceiverSyncService

end ReceiverPowerSync

namespace ReceiverPowerSync

theorem toBytesBE_length (k n : Nat) : (toBytesBE k n).length = k := by
  induction k generalizing n with
  | zero => rfl
  | succ k ih => simp [toBytesBE, ih]

theorem fromBytesBE_append_one (l : List Nat) (b : Nat) :
    fromBytesBE (l ++ [b]) = fromBytesBE l * 256 + b := by
  simp [fromBytesBE, List.foldl_append]

theorem fromBytesBE_toBytesBE (k n : Nat) (h : n < 256 ^ k) :
    fromBytesBE (toBytesBE k n) = n := by
  induction k generalizing n with
  | zero =>
    interval_cases n
    rfl
  | succ k ih =>
    have hdiv : n / 256 < 256 ^ k := by
      rw [Nat.div_lt_iff_lt_mul (by norm_num)]
      calc n < 256 ^ (k + 1) := h
        _ = 256 ^ k * 256 := by ring
    rw [toBytesBE, fromBytesBE_append_one, ih _ hdiv]
    omega

theorem take_len_append {α : Type} (l1 l2 : List α) :
    (l1 ++ l2).take l1.length = l1 := by
  induction l1 with
  | nil => rfl
  | cons a l ih => simp [ih]

theorem drop_len_append {α : Type} (l1 l2 : List α) :
    (l1 ++ l2).drop l1.length = l2 := by
  induction l1 with
  | nil => rfl
  | cons a l ih => simp [ih]

theorem take_len_add_append {α : Type} (l1 l2 : List α) (k : Nat) :
    (l1 ++ l2).take (l1.length + k) = l1 ++ l2.take k := by
  induction l1 with
  | nil => simp
  | cons a l ih => simp [List.length_cons, Nat.succ_add, ih]

theorem pyBound_coe (L m : Nat) : pyBound L (m : Int) = min m L := by
  unfold pyBound
  rw [if_neg (by omega)]
  simp

theorem take_add_drop_mid {α : Type} (l1 l2 l3 : List α) (a : Nat)
    (ha : a = l1.length) :
    ((l1 ++ (l2 ++ l3)).take (a + l2.length)).drop a = l2 := by
  subst ha
  rw [take_len_add_append, take_len_append, drop_len_append]

theorem packet_header_fields (c : List Nat) (hlt : c.length + 1 < 4294967296) :
    extract_eiscp_header (([73, 83, 67, 80] ++ toBytesBE 4 16 ++ toBytesBE 4 (c.length + 1)
      ++ [1, 0, 0, 0]) ++ c ++ [13]) = some (16, c.length + 1) := by
  have hmag : (([73, 83, 67, 80] ++ toBytesBE 4 16 ++ toBytesBE 4 (c.length + 1)
      ++ [1, 0, 0, 0]) ++ c ++ [13]).take 4 = [73, 83, 67, 80] := rfl
  have e8 : (([73, 83, 67, 80] ++ toBytesBE 4 16 ++ toBytesBE 4 (c.length + 1)
      ++ [1, 0, 0, 0]) ++ c ++ [13]).drop 8
      = (toBytesBE 4 (c.length + 1) ++ [1, 0, 0, 0]) ++ (c ++ [13]) := rfl
  have e8t : ((toBytesBE 4 (c.length + 1) ++ [1, 0, 0, 0]) ++ (c ++ [13])).take 4
      = toBytesBE 4 (c.length + 1) := by
    rw [List.append_assoc]
    rw [show (4 : Nat) = (toBytesBE 4 (c.length + 1)).length from (toBytesBE_length 4 _).symm]
    exact take_len_append _ _
  have h256 : c.length + 1 < 256 ^ 4 := by norm_num; omega
  unfold extract_eiscp_header
  rw [if_pos hmag, e8, e8t, fromBytesBE_toBytesBE 4 _ h256]
  rfl

theorem packet_message_slice (c : List Nat) (hlt : c.length + 1 < 4294967296) :
    extract_eiscp_message (([73, 83, 67, 80] ++ toBytesBE 4 16 ++ toBytesBE 4 (c.length + 1)
      ++ [1, 0, 0, 0]) ++ c ++ [13]) = some c := by
  have hh := packet_header_fields c hlt
  have hg : ([73, 83, 67, 80] ++ toBytesBE 4 16 ++ toBytesBE 4 (c.length + 1)
      ++ [1, 0, 0, 0]).length = 16 := by
    simp [toBytesBE_length]
  have hlen : (([73, 83, 67, 80] ++ toBytesBE 4 16 ++ toBytesBE 4 (c.length + 1)
      ++ [1, 0, 0, 0]) ++ c ++ [13]).length = 17 + c.length := by
    simp [toBytesBE_length]
    omega
  unfold extract_eiscp_message
  rw [hh]
  show some (pySlice _ ((16 : Nat) : Int)
      (((16 : Nat) : Int) + ((c.length + 1 : Nat) : Int) - 1)) = some c
  congr 1
  have hstop : ((16 : Nat) : Int) + ((c.length + 1 : Nat) : Int) - 1
      = ((16 + c.length : Nat) : Int) := by
    push_cast
    ring
  rw [hstop]
  unfold pySlice
  rw [pyBound_coe, pyBound_coe, hlen]
  rw [min_eq_left (by omega), min_eq_left (by omega)]
  exact take_add_drop_mid _ c [13] 16 hg.symm

theorem assemble_loop_cons (b : Nat) (rest received : List Nat) (found : Bool) :
    ReceiverConnection.assemble_loop (b :: rest) received found
      = if isTermByte b then
          (if found then some received
           else ReceiverConnection.assemble_loop rest received found)
        else ReceiverConnection.assemble_loop rest (received ++ [b]) (found || b == 33) :=
  rfl

theorem assemble_loop_no_term (mid : List Nat) :
    ∀ received found, (∀ b ∈ mid, isTermByte b = false) →
      ReceiverConnection.assemble_loop mid received found = none := by
  induction mid with
  | nil => intro _ _ _; rfl
  | cons b rest ih =>
    intro received found hmid
    have hb : isTermByte b = false := hmid b (List.mem_cons_self _ _)
    have ih1 := ih (received ++ [b]) (found || b == 33)
      (fun x hx => hmid x (List.mem_cons_of_mem _ hx))
    simp [ReceiverConnection.assemble_loop, hb, ih1]

theorem assemble_loop_skip (s2 : List Nat) (pre : List Nat) :
    ∀ received, (∀ b ∈ pre, b ≠ 33) →
      ReceiverConnection.assemble_loop (pre ++ s2) received false
        = ReceiverConnection.assemble_loop s2
            (received ++ pre.filter (fun b => !isTermByte b)) false := by
  induction pre with
  | nil => intro received _; simp
  | cons b rest ih =>
    intro received hpre
    have hb33 : b ≠ 33 := hpre b (List.mem_cons_self _ _)
    have hrest : ∀ x ∈ rest, x ≠ 33 := fun x hx => hpre x (List.mem_cons_of_mem _ hx)
    by_cases hb : isTermByte b = true
    · rw [List.cons_append, assemble_loop_cons, if_pos hb, if_neg (by simp)]
      rw [ih received hrest]
      simp [List.filter_cons, hb]
    · have hb' : isTermByte b = false := by
        revert hb; cases isTermByte b <;> simp
      have hbeq : (b == 33) = false := by simp [hb33]
      rw [List.cons_append, assemble_loop_cons, if_neg (by simp [hb']),
        Bool.false_or, hbeq]
      rw [ih (received ++ [b]) hrest]
      simp [List.filter_cons, hb', List.append_assoc]

theorem assemble_loop_terminated (t : Nat) (ht : isTermByte t = true) (rest : List Nat)
    (mid : List Nat) :
    ∀ received, (∀ b ∈ mid, isTermByte b = false) →
      ReceiverConnection.assemble_loop (mid ++ t :: rest) received true
        = some (received ++ mid) := by
  induction mid with
  | nil =>
    intro received _
    simp [ReceiverConnection.assemble_loop, ht]
  | cons b mid ih =>
    intro received hmid
    have hb : isTermByte b = false := hmid b (List.mem_cons_self _ _)
    have h2 := ih (received ++ [b]) (fun x hx => hmid x (List.mem_cons_of_mem _ hx))
    rw [List.cons_append, assemble_loop_cons, if_neg (by simp [hb]), Bool.true_or]
    rw [h2]
    simp

theorem pySlice_length_le (l : List Nat) (a c : Int) :
    (pySlice l a c).length ≤ l.length := by
  unfold pySlice
  simp [List.length_take]

theorem sendLoop_noFail (message : List Nat) :
    ∀ secs, ReceiverSyncService.sendLoop (fun _ => false) message secs
      = (secs.map (fun s => (s, message)), false) := by
  intro secs
  induction secs with
  | nil => rfl
  | cons s rest ih => simp [ReceiverSyncService.sendLoop, ih]

end ReceiverPowerSync

namespace ReceiverPowerSync

/-- Claim C1: the spec requires `relay_message_to_secondary` to catch
and log a per-secondary send failure and continue with the remaining
secondaries, but the loop at service.py lines 368-369 has no
try/except: with three secondaries (1, 2, 3 after the primary 0) where
the send to secondary 2 raises, only secondary 1 receives the power
message, the exception propagates, and secondary 3 is never sent to. -/
theorem relay_loop_aborts_on_secondary_failure :
    ReceiverSyncService.relay_message_to_secondary (fun s => s == 2) [0, 1, 2, 3]
      [33, 49, 80, 87, 82, 48, 49]
      = ([(1, [33, 49, 80, 87, 82, 48, 49])], true) := by
  decide

/-- Claim C2: the spec requires a mid-read timeout to discard the
message without raising, but when the 15-byte header grab after the
`I` byte times out, `_tcp_grab_bytes` returns `None` and the
`header += ...` at service.py line 174 raises `TypeError`, which no
handler catches; a timeout in the payload grab, by contrast, is
discarded as the spec says. -/
theorem eiscp_header_timeout_raises :
    EiscpConnection.get_message [some 73, none] = Except.error EiscpReadErr.typeErr
    ∧ EiscpConnection.get_message
        ([some 73] ++ ([83, 67, 80, 0, 0, 0, 16, 0, 0, 0, 8, 1, 0, 0, 0].map some)
          ++ [none])
      = Except.ok none :=
  ⟨rfl, rfl⟩

/-- Claim C3: the spec requires every variant's forced disconnect to
end in the Disconnected state (flag cleared, handle released); the two
TCP variants do clear the flag and drop the socket, but
`IscpSerialConnection._disconnect` only closes the port and leaves
`connected = True`, so the next `listen_forever` iteration does not
attempt a reconnect. -/
theorem serial_disconnect_leaves_connected :
    (IscpSerialConnection.discon (SerialConnState.mk (some (SerialPort.mk true)) true)).connected
      = true
    ∧ (IscpSerialConnection.discon (SerialConnState.mk (some (SerialPort.mk true)) true)).ser
      = some (SerialPort.mk false)
    ∧ EiscpConnection.discon (TcpConnState.mk true true) = TcpConnState.mk false false
    ∧ IscpTcpConnection.discon (TcpConnState.mk true true) = TcpConnState.mk false false
    ∧ listen_iteration_reconnects
        (IscpSerialConnection.discon (SerialConnState.mk (some (SerialPort.mk true)) true)).connected
      = false := by
  decide

/-- Claim C4: for every non-empty command byte sequence c that
`struct.pack` accepts (so that `build_eiscp_packet` yields a packet
p), `extract_eiscp_header p` returns the pair (16, len(c)+1) and
`extract_eiscp_message p` recovers c exactly. -/
theorem framer_round_trip (c p : List Nat) (_hne : c ≠ [])
    (hp : build_eiscp_packet c = some p) :
    extract_eiscp_header p = some (16, c.length + 1)
    ∧ extract_eiscp_message p = some c := by
  unfold build_eiscp_packet at hp
  split at hp
  case isTrue hlt =>
    injection hp with hp
    subst hp
    exact ⟨packet_header_fields c hlt, packet_message_slice c hlt⟩
  case isFalse h =>
    exact absurd hp (by simp)

theorem framer_round_trip_witness :
    extract_eiscp_header
        [73, 83, 67, 80, 0, 0, 0, 16, 0, 0, 0, 8, 1, 0, 0, 0, 33, 49, 80, 87, 82, 48, 49, 13]
      = some (16, 8)
    ∧ extract_eiscp_message
        [73, 83, 67, 80, 0, 0, 0, 16, 0, 0, 0, 8, 1, 0, 0, 0, 33, 49, 80, 87, 82, 48, 49, 13]
      = some [33, 49, 80, 87, 82, 48, 49] :=
  framer_round_trip [33, 49, 80, 87, 82, 48, 49]
    [73, 83, 67, 80, 0, 0, 0, 16, 0, 0, 0, 8, 1, 0, 0, 0, 33, 49, 80, 87, 82, 48, 49, 13]
    (by decide) (by decide)

/-- Claim C5 counterexample: the claim says the assembled message
begins at the first `!` byte seen, but on the stream `b"A!X\r"` the
assembler returns `b"A!X"`, whose first byte is not `!`: non-terminator
bytes arriving before the marker are kept, not skipped. -/
theorem relay_assembly_claim_counterexample :
    ReceiverConnection.get_message [65, 33, 88, 13] = some [65, 33, 88]
    ∧ [65, 33, 88].take 1 ≠ [33] := by
  decide

/-- Claim C5 (amended): terminator bytes before the first `!` are
skipped as idle noise, but every other byte before the marker is
retained at the front of the assembled message; the message ends at
the first terminator byte after the marker; and if the stream is
exhausted before a terminator arrives after the marker, assembly
terminates and reports no message. -/
theorem relay_assembly_amended :
    (∀ pre mid t rest, (∀ b ∈ pre, b ≠ 33) → (∀ b ∈ mid, isTermByte b = false) →
        isTermByte t = true →
        ReceiverConnection.get_message (pre ++ 33 :: (mid ++ t :: rest))
          = some (pre.filter (fun b => !isTermByte b) ++ 33 :: mid))
    ∧ (∀ pre mid, (∀ b ∈ pre, b ≠ 33) → (∀ b ∈ mid, isTermByte b = false) →
        ReceiverConnection.get_message (pre ++ mid) = none) := by
  constructor
  · intro pre mid t rest hpre hmid ht
    unfold ReceiverConnection.get_message
    rw [assemble_loop_skip _ pre [] hpre]
    rw [show ReceiverConnection.assemble_loop (33 :: (mid ++ t :: rest))
          ([] ++ pre.filter (fun b => !isTermByte b)) false
        = ReceiverConnection.assemble_loop (mid ++ t :: rest)
            (([] ++ pre.filter (fun b => !isTermByte b)) ++ [33]) true from rfl]
    rw [assemble_loop_terminated t ht rest mid _ hmid]
    simp
  · intro pre mid hpre hmid
    unfold ReceiverConnection.get_message
    rw [assemble_loop_skip _ pre [] hpre]
    exact assemble_loop_no_term mid _ false hmid

theorem relay_assembly_amended_witness :
    ReceiverConnection.get_message [13, 13, 33, 49, 80, 87, 82, 48, 49, 13]
      = some [33, 49, 80, 87, 82, 48, 49]
    ∧ ReceiverConnection.get_message [33, 49, 80, 87, 82, 48, 49] = none := by
  constructor
  · have h := relay_assembly_amended.1 [13, 13] [49, 80, 87, 82, 48, 49] 13 []
      (by decide) (by decide) (by decide)
    simpa [isTermByte] using h
  · have h := relay_assembly_amended.2 [] [33, 49, 80, 87, 82, 48, 49]
      (by decide) (by decide)
    simpa using h

/-- Claim C6: with every send succeeding, the relay delivers the exact
message bytes to every listener after the first, in list order, when
and only when the message's first five bytes are `!1PWR`; any other
message produces no delivery at all. -/
theorem relay_power_filter (listeners message : List Nat) :
    (ReceiverSyncService.relay_message_to_secondary (fun _ => false) listeners message).1
      = if message.take 5 = [33, 49, 80, 87, 82] then
          (listeners.drop 1).map (fun s => (s, message))
        else [] := by
  unfold ReceiverSyncService.relay_message_to_secondary
  by_cases h : message.take 5 = [33, 49, 80, 87, 82] <;>
    simp [h, sendLoop_noFail]

/-- Claim C7: when the first write raises a reset error,
`send_message_to_receiver` sleeps one second, disconnects, reconnects
and writes exactly once more (two write attempts in total, whatever
the oracle holds beyond them), and the outcome of that second write is
exactly what escapes to the caller. -/
theorem send_message_retry_semantics (connected r2 : Bool) (rest : List Bool) :
    ReceiverConnection.send_message_to_receiver connected (true :: r2 :: rest)
      = ((if connected then [] else [SendAct.connectAct])
          ++ [SendAct.writeAct, SendAct.sleepOneAct, SendAct.disconnectAct,
              SendAct.connectAct, SendAct.writeAct], r2)
    ∧ (ReceiverConnection.send_message_to_receiver connected (true :: r2 :: rest)).1.count
        SendAct.writeAct = 2 := by
  cases connected <;> exact ⟨rfl, rfl⟩

/-- Claim C8: a successfully read non-empty eISCP payload is returned
by the acceptance step exactly when, after stripping all trailing
terminator bytes, it begins with `!1`; otherwise it is discarded. -/
theorem eiscp_accept_iff_bang_one (msg : List Nat) (h : msg ≠ []) :
    EiscpConnection.accept_payload msg
      = if (EiscpConnection.stripTermsRight msg).take 2 = [33, 49] then
          some (EiscpConnection.stripTermsRight msg)
        else none := by
  unfold EiscpConnection.accept_payload
  rw [if_neg h]

theorem eiscp_accept_iff_bang_one_witness :
    EiscpConnection.accept_payload [33, 49, 80, 87, 82, 48, 49, 13]
      = some [33, 49, 80, 87, 82, 48, 49] := by
  rw [eiscp_accept_iff_bang_one [33, 49, 80, 87, 82, 48, 49, 13] (by decide)]
  decide

/-- Claim C9: for every byte sequence that does not start with the
four magic bytes `ISCP`, `extract_eiscp_header` returns `None`. -/
theorem extract_header_bad_magic_none (b : List Nat)
    (h : b.take 4 ≠ [73, 83, 67, 80]) :
    extract_eiscp_header b = none := by
  unfold extract_eiscp_header
  rw [if_neg h]

theorem extract_header_bad_magic_none_witness :
    extract_eiscp_header [88, 49, 80] = none :=
  extract_header_bad_magic_none [88, 49, 80] (by decide)

/-- Claim C10: on every input starting with `ISCP` the extraction
functions are total: `extract_eiscp_header` returns the pair of
big-endian fields read from the (possibly clamped, possibly empty)
slices `[4:8]` and `[8:12]`, and `extract_eiscp_message` returns some
byte string no longer than the input, with no error signalled even
when the declared sizes overrun the data. -/
theorem eiscp_extract_total (b : List Nat) (h : b.take 4 = [73, 83, 67, 80]) :
    extract_eiscp_header b
      = some (fromBytesBE ((b.drop 4).take 4), fromBytesBE ((b.drop 8).take 4))
    ∧ ∃ m, extract_eiscp_message b = some m ∧ m.length ≤ b.length := by
  have h1 : extract_eiscp_header b
      = some (fromBytesBE ((b.drop 4).take 4), fromBytesBE ((b.drop 8).take 4)) := by
    unfold extract_eiscp_header
    rw [if_pos h]
  have h2 : extract_eiscp_message b
      = some (pySlice b ((fromBytesBE ((b.drop 4).take 4) : Nat) : Int)
          (((fromBytesBE ((b.drop 4).take 4) : Nat) : Int)
            + ((fromBytesBE ((b.drop 8).take 4) : Nat) : Int) - 1)) := by
    unfold extract_eiscp_message
    rw [h1]
  exact ⟨h1, _, h2, pySlice_length_le b _ _⟩

theorem eiscp_extract_total_witness :
    extract_eiscp_header [73, 83, 67, 80] = some (0, 0)
    ∧ ∃ m, extract_eiscp_message [73, 83, 67, 80] = some m ∧ m.length ≤ 4 :=
  eiscp_extract_total [73, 83, 67, 80] (by decide)

end ReceiverPowerSync
